import Mathlib

/-!
Shallow embedding of the CUDA `Baton` synchronization primitive from
`torch/csrc/distributed/c10d/cuda/` (Baton.cu, Baton.cpp, Baton.cuh, Baton.h)
together with theorems settling the specification claims about it.

The device kernel `kernel_barrier` is modelled as an explicit iteration
function over the values the device reads at each poll (the abort-flag word
and the device clock), with a fuel-bounded runner.  Machine integers
(`int32_t`, `size_t`) are modelled with `Int` and `Nat`; the only arithmetic
the claims touch is on small values where no wrap-around occurs, and the
`size_t` clock subtraction `now - start` is taken on a monotonic clock
(`start ≤ now`), where unsigned subtraction and `Nat` subtraction agree.
-/

namespace C10dCuda

/-- BatonStatus enum values (Baton.h): UNKNOWN=0, RUNNING=1, TIMED_OUT=2,
ABORTED=3, underlying type int32_t. -/
def UNKNOWN : Int := 0

/-- BatonStatus::RUNNING = 1. -/
def RUNNING : Int := 1

/-- BatonStatus::TIMED_OUT = 2. -/
def TIMED_OUT : Int := 2

/-- BatonStatus::ABORTED = 3. -/
def ABORTED : Int := 3

/-- A terminal status value, after which the spec says no further transition
occurs. -/
def isTerminal (v : Int) : Prop := v = TIMED_OUT ∨ v = ABORTED

instance (v : Int) : Decidable (isTerminal v) := by
  unfold isTerminal; infer_instance

/-- The two-word control channel: the `comm_` tensor of `detail::Baton`
(Baton.cuh), word 0 = abort flag (`value[0]` in the kernel), word 1 = status
(`value[1]`). Both words are int32. -/
structure ControlChannel where
  abortFlag : Int
  statusWord : Int
deriving Repr, DecidableEq

/-- Constructor `detail::Baton::Baton` (Baton.cu lines 41-48): `comm_` is built with
`at::empty({2}, kInt).pin_memory()`.  `at::empty` does NOT zero the
allocation, so the two words start with whatever unspecified contents the
fresh allocation holds; those unspecified initial contents are the two
parameters here.  The constructor then launches `kernel_barrier` on the
channel. -/
def Baton.construct (initAbort initStatus : Int) : ControlChannel :=
  { abortFlag := initAbort, statusWord := initStatus }

/-- Host-side `detail::Baton::abort` (Baton.cuh): `comm_[0] = 1;` — writes the value 1
into the abort word, unconditionally. -/
def Baton.abort (c : ControlChannel) : ControlChannel :=
  { c with abortFlag := 1 }

/-- Host-side `detail::Baton::status` (Baton.cuh):
`return static_cast<BatonStatus>(comm_[1].item<int32_t>());` — an
unconditional read of the status word, cast to the enum with no validation.
The static_cast on an int32-underlying enum preserves the value, so the
model returns the raw word. -/
def Baton.status (c : ControlChannel) : Int :=
  c.statusWord

/-- The fixed sleep between polls: `__nanosleep(1000000)` (Baton.cu line 37),
i.e. 1 ms in nanoseconds. -/
def poll_interval_ns : Nat := 1000000

/-- Outcome of one iteration of the `while (true)` body of `kernel_barrier`. -/
inductive IterResult where
  /-- exit branch `value[1] = BatonStatus::ABORTED; return;` -/
  | abortExit
  /-- exit branch `value[1] = BatonStatus::TIMED_OUT; return;` -/
  | timeoutExit
  /-- fall through to `__nanosleep(1000000);` and loop again -/
  | keepPolling
deriving Repr, DecidableEq

/-- One iteration of the loop body of `kernel_barrier` (Baton.cu lines
18-38), given the timeout argument, the clock value `start` captured before
the loop, the clock value `now` this iteration would read, and the value
`current_value` read from the abort word by `atomicAdd(&value[0], 0)`:

1. `if (current_value == 1)` — write ABORTED and return;
2. `if (timeout_ms > 0)` and `(now - start) > timeout_ns` — write TIMED_OUT
   and return, where `timeout_ns = timeout_ms * 1e6` (exact for every
   timeout a `size_t` product below 2^53 ns can express);
3. otherwise sleep `poll_interval_ns` and repeat.

`now - start` is `size_t` subtraction on a monotonic clock (`start ≤ now`),
which coincides with `Nat` subtraction. -/
def kernel_barrier_iter (timeout_ms start now : Nat) (current_value : Int) :
    IterResult :=
  if current_value = 1 then .abortExit
  else if 0 < timeout_ms ∧ timeout_ms * 1000000 < now - start then .timeoutExit
  else .keepPolling

/-- Fuel-bounded run of the `while (true)` loop of `kernel_barrier`, starting
at iteration `i`.  `clock j` is the `global_timer_ns()` value read at
iteration `j`; `flag j` is the abort-word value read at iteration `j` (the
host may set the word concurrently, which is why it is a function of the
iteration).  Returns the terminal status written to `value[1]` at exit, or
`none` if the loop is still polling after `fuel` iterations. -/
def kernel_barrier_loop (timeout_ms start : Nat) (clock : Nat → Nat)
    (flag : Nat → Int) : Nat → Nat → Option Int
  | 0, _ => none
  | fuel + 1, i =>
    match kernel_barrier_iter timeout_ms start (clock i) (flag i) with
    | .abortExit => some ABORTED
    | .timeoutExit => some TIMED_OUT
    | .keepPolling => kernel_barrier_loop timeout_ms start clock flag fuel (i + 1)

/-- The writes the loop of `kernel_barrier` performs to the status word
`value[1]` within `fuel` iterations starting at iteration `i` (each exit
branch performs exactly one write and returns). -/
def kernel_barrier_loop_writes (timeout_ms start : Nat) (clock : Nat → Nat)
    (flag : Nat → Int) : Nat → Nat → List Int
  | 0, _ => []
  | fuel + 1, i =>
    match kernel_barrier_iter timeout_ms start (clock i) (flag i) with
    | .abortExit => [ABORTED]
    | .timeoutExit => [TIMED_OUT]
    | .keepPolling => kernel_barrier_loop_writes timeout_ms start clock flag fuel (i + 1)

/-- All writes `kernel_barrier` performs to the status word, in order: the
kernel's first statement is `value[1] = BatonStatus::RUNNING;` (Baton.cu
line 14), then the loop contributes at most one terminal write. -/
def kernel_barrier_writes (timeout_ms start : Nat) (clock : Nat → Nat)
    (flag : Nat → Int) (fuel : Nat) : List Int :=
  RUNNING :: kernel_barrier_loop_writes timeout_ms start clock flag fuel 0

/-- The value `status()` observes after the first `j` writes of the trace
`ws` have landed on the channel: the last of those writes, or — while no
write has happened yet — `init`, the value the status word actually starts
with, i.e. whatever the `at::empty` allocation of the constructor left
there. -/
def observedStatusFrom (init : Int) (ws : List Int) (j : Nat) : Int :=
  (List.take j ws).getLast?.getD init

/-- A backend Baton instance as produced by a registry factory: its control
channel and its configured timeout. -/
structure BatonObj where
  comm : ControlChannel
  timeout_ms : Nat
deriving Repr, DecidableEq

/-- Modelled from the spec: the backend registry's `create(name, timeout)`
("Registry interface: `register(name, factory)`,
`create(name, timeout) -> Baton | error`" — it "returns a Baton instance or
a failure if the name is unregistered").  The registry bookkeeping itself
lives in c10/util/Registry.h, which is not among the source files; the
registered (name, factory) pairs are the `reg` argument, and an unregistered
name yields `none` (the nullptr `Create` returns). -/
def RegistryCreate (reg : List (String × (Nat → BatonObj))) (name : String)
    (timeout : Nat) : Option BatonObj :=
  (reg.lookup name).map (fun f => f timeout)

/-- Factory `c10d::cuda::baton` (Baton.cpp lines 8-12):
`auto baton = BatonRegistry()->Create("CUDA", timeout);`
`TORCH_CHECK(baton, "Failed to create baton");` — TORCH_CHECK throws (here:
`Except.error`) when `Create` returned nullptr, so a null pointer is never
returned to the caller; otherwise the created Baton is returned as-is. -/
def baton (reg : List (String × (Nat → BatonObj))) (timeout : Nat) :
    Except String BatonObj :=
  match RegistryCreate reg "CUDA" timeout with
  | none => .error "Failed to create baton"
  | some b => .ok b

/-! ### Helper lemmas -/

/-- An iteration that reads the abort word as 1 exits through the abort
branch, whatever the timeout and the clock. -/
theorem iter_flag_one (timeout_ms start now : Nat) :
    kernel_barrier_iter timeout_ms start now 1 = .abortExit := by
  simp [kernel_barrier_iter]

/-- With timeout 0, the timeout branch is dead: an iteration either aborts
or keeps polling. -/
theorem iter_timeout_zero (start now : Nat) (v : Int) :
    kernel_barrier_iter 0 start now v = .abortExit ∨
    kernel_barrier_iter 0 start now v = .keepPolling := by
  unfold kernel_barrier_iter
  by_cases h : v = 1 <;> simp [h]

/-- The loop's write trace is empty or a single terminal write. -/
theorem loop_writes_cases (timeout_ms start : Nat) (clock : Nat → Nat)
    (flag : Nat → Int) (fuel i : Nat) :
    kernel_barrier_loop_writes timeout_ms start clock flag fuel i = [] ∨
    kernel_barrier_loop_writes timeout_ms start clock flag fuel i = [TIMED_OUT] ∨
    kernel_barrier_loop_writes timeout_ms start clock flag fuel i = [ABORTED] := by
  induction fuel generalizing i with
  | zero => left; rfl
  | succ n ih =>
    unfold kernel_barrier_loop_writes
    cases kernel_barrier_iter timeout_ms start (clock i) (flag i) with
    | abortExit => right; right; rfl
    | timeoutExit => right; left; rfl
    | keepPolling => exact ih (i + 1)

/-- If every iteration in `[i, i+k)` keeps polling and iteration `i+k` reads
the abort word as 1, the loop exits at iteration `i+k` with ABORTED. -/
theorem loop_abort_observed (timeout_ms start : Nat) (clock : Nat → Nat)
    (flag : Nat → Int) :
    ∀ k i fuel,
      (∀ j, j < k →
        kernel_barrier_iter timeout_ms start (clock (i + j)) (flag (i + j)) =
          .keepPolling) →
      flag (i + k) = 1 → k < fuel →
      kernel_barrier_loop timeout_ms start clock flag fuel i = some ABORTED := by
  intro k
  induction k with
  | zero =>
    intro i fuel _ habort hfuel
    match fuel, hfuel with
    | n + 1, _ =>
      unfold kernel_barrier_loop
      rw [show i + 0 = i from rfl] at habort
      rw [habort, iter_flag_one]
  | succ m ih =>
    intro i fuel hpoll habort hfuel
    match fuel, hfuel with
    | n + 1, hfuel =>
      unfold kernel_barrier_loop
      have h0 := hpoll 0 (Nat.succ_pos m)
      rw [show i + 0 = i from rfl] at h0
      rw [h0]
      refine ih (i + 1) n (fun j hj => ?_) ?_ (Nat.lt_of_succ_lt_succ hfuel)
      · have := hpoll (j + 1) (Nat.succ_lt_succ hj)
        rwa [show i + (j + 1) = i + 1 + j by omega] at this
      · rwa [show i + 1 + m = i + (m + 1) by omega]

/-! ### Claims -/

/-- C1 (code_bug evidence): the constructor builds `comm_` with
`at::empty(...).pin_memory()`, which does not zero the allocation.  On a
fresh allocation whose second word happens to hold 2, `status()` called
before the device loop has begun executing returns TIMED_OUT, not UNKNOWN —
against the spec's "allocates and zero-initializes a ControlChannel" and
"returns UNKNOWN until the device loop has actually begun executing". -/
theorem c1_construct_not_zero_initialized :
    Baton.status (Baton.construct 0 2) = TIMED_OUT ∧ TIMED_OUT ≠ UNKNOWN := by
  constructor
  · rfl
  · decide

/-- C2 counterexample: the device loop tests `current_value == 1`, not
"nonzero".  With the abort word holding 2 and the 1 ms timeout already
elapsed (elapsed 2000001 ns > 1000000 ns), the iteration exits TIMED_OUT,
not ABORTED — refuting "any nonzero value of abort_flag causes the loop to
write status=ABORTED ... even when the timeout has also elapsed". -/
theorem c2_nonzero_flag_counterexample :
    (2 : Int) ≠ 0 ∧
    kernel_barrier_iter 1 0 2000001 2 = IterResult.timeoutExit ∧
    kernel_barrier_iter 1 0 2000001 2 ≠ IterResult.abortExit := by
  refine ⟨by decide, by decide, by decide⟩

/-- C2 (amended): in every iteration the abort word is read first and the
value 1 — the only value `abort()` ever writes — makes the loop write
ABORTED and return; this check precedes the timeout check, so an observed
abort produces ABORTED even when the timeout has also elapsed in that
iteration (the timeout clause is never reached). -/
theorem c2_abort_check_precedes_timeout (timeout_ms start now : Nat) :
    kernel_barrier_iter timeout_ms start now 1 = IterResult.abortExit := by
  exact iter_flag_one timeout_ms start now

/-- C3 (confirmed): for a positive timeout, an iteration that does not
observe the abort value exits TIMED_OUT exactly when the elapsed device time
`now - start` exceeds the timeout converted to nanoseconds, and otherwise
keeps polling, sleeping the fixed 1 ms interval. -/
theorem c3_timeout_check (timeout_ms start now : Nat) (v : Int)
    (ht : 0 < timeout_ms) (hv : v ≠ 1) :
    (kernel_barrier_iter timeout_ms start now v = IterResult.timeoutExit ↔
       timeout_ms * 1000000 < now - start) ∧
    (kernel_barrier_iter timeout_ms start now v = IterResult.keepPolling ↔
       ¬ timeout_ms * 1000000 < now - start) ∧
    poll_interval_ns = 1000000 := by
  unfold kernel_barrier_iter
  rw [if_neg hv]
  refine ⟨?_, ?_, rfl⟩ <;>
    by_cases h : timeout_ms * 1000000 < now - start <;> simp [h, ht]

/-- Witness for C3: timeout 1 ms, elapsed 2000001 ns > 1000000 ns, abort
word 0. -/
theorem c3_timeout_check_witness :
    (kernel_barrier_iter 1 0 2000001 0 = IterResult.timeoutExit ↔
       1 * 1000000 < 2000001 - 0) ∧
    (kernel_barrier_iter 1 0 2000001 0 = IterResult.keepPolling ↔
       ¬ 1 * 1000000 < 2000001 - 0) ∧
    poll_interval_ns = 1000000 :=
  c3_timeout_check 1 0 2000001 0 (by decide) (by decide)

/-- With timeout 0, the loop either runs out of fuel or exits ABORTED. -/
theorem loop_timeout_zero (start : Nat) (clock : Nat → Nat) (flag : Nat → Int) :
    ∀ fuel i,
      kernel_barrier_loop 0 start clock flag fuel i = none ∨
      kernel_barrier_loop 0 start clock flag fuel i = some ABORTED := by
  intro fuel
  induction fuel with
  | zero => intro i; left; rfl
  | succ n ih =>
    intro i
    unfold kernel_barrier_loop
    rcases iter_timeout_zero start (clock i) (flag i) with h | h <;> rw [h]
    · right; rfl
    · exact ih (i + 1)

/-- C4 (confirmed): with timeout 0 the device wait loop never exits with
TIMED_OUT; whenever it reaches a terminal status at all, that status is
ABORTED — which the loop writes only after reading the abort word as 1. -/
theorem c4_zero_timeout_never_timed_out (start : Nat) (clock : Nat → Nat)
    (flag : Nat → Int) (fuel i : Nat) (v : Int)
    (h : kernel_barrier_loop 0 start clock flag fuel i = some v) :
    v = ABORTED ∧ v ≠ TIMED_OUT := by
  rcases loop_timeout_zero start clock flag fuel i with h0 | h0 <;>
    rw [h0] at h
  · exact absurd h (by simp)
  · have hv : v = ABORTED := by
      have := h.symm
      exact (Option.some.injEq _ _ ▸ this)
    subst hv
    exact ⟨rfl, by decide⟩

/-- Witness for C4: timeout 0, the abort word reads 1 at the first
iteration, one unit of fuel: the loop exits ABORTED. -/
theorem c4_zero_timeout_never_timed_out_witness :
    ABORTED = ABORTED ∧ ABORTED ≠ TIMED_OUT :=
  c4_zero_timeout_never_timed_out 0 (fun _ => 0) (fun _ => 1) 1 0 ABORTED
    (by decide)

/-- C5 (code_bug evidence): the kernel itself writes RUNNING first and then
at most one terminal value before returning, but the claimed sequence
UNKNOWN to RUNNING to terminal and the terminal-persistence consequence
fail on the code because the constructor's `at::empty` channel is not
zeroed: on a fresh allocation holding [0, 2], `status()` observes
TIMED_OUT (a terminal value) before the kernel has written anything, and
the kernel's first write (RUNNING) then changes the observation to
RUNNING, so a terminal observation does not persist and the sequence does
not start at UNKNOWN. -/
theorem c5_garbage_start_breaks_transitions :
    kernel_barrier_writes 0 0 (fun _ => 0) (fun _ => 0) 0 = [RUNNING] ∧
    observedStatusFrom (Baton.status (Baton.construct 0 2))
        (kernel_barrier_writes 0 0 (fun _ => 0) (fun _ => 0) 0) 0 = TIMED_OUT ∧
    isTerminal TIMED_OUT ∧
    observedStatusFrom (Baton.status (Baton.construct 0 2))
        (kernel_barrier_writes 0 0 (fun _ => 0) (fun _ => 0) 0) 1 = RUNNING ∧
    RUNNING ≠ TIMED_OUT ∧
    TIMED_OUT ≠ UNKNOWN := by
  refine ⟨rfl, rfl, by decide, rfl, by decide, by decide⟩

/-- Iterating `abort` on an already-aborted channel changes nothing: the
write is always the constant 1 into the abort word. -/
theorem abort_iterate_absorb (m : Nat) (c : ControlChannel) :
    Baton.abort^[m] (Baton.abort c) = Baton.abort c := by
  induction m with
  | zero => rfl
  | succ n ih =>
    rw [Function.iterate_succ_apply]
    have h : Baton.abort (Baton.abort c) = Baton.abort c := rfl
    rw [h, ih]

/-- C6 (confirmed): `abort()` only ever writes the value 1 into the abort
word, so any positive number of calls leaves the channel in exactly the
state a single call leaves it in, and a call never touches the status word,
so it changes nothing `status()` observes — in particular calling it after
the loop is terminal is unobservable through `status()`. -/
theorem c6_abort_idempotent (c : ControlChannel) (n : Nat) (hn : 1 ≤ n) :
    Baton.abort^[n] c = Baton.abort c ∧
    (Baton.abort c).abortFlag = 1 ∧
    Baton.status (Baton.abort c) = Baton.status c := by
  match n, hn with
  | m + 1, _ =>
    rw [Function.iterate_succ_apply]
    exact ⟨abort_iterate_absorb m c, rfl, rfl⟩

/-- Witness for C6: three calls to `abort()` on the channel (0, 5). -/
theorem c6_abort_idempotent_witness :
    Baton.abort^[3] (Baton.construct 0 5) = Baton.abort (Baton.construct 0 5) ∧
    (Baton.abort (Baton.construct 0 5)).abortFlag = 1 ∧
    Baton.status (Baton.abort (Baton.construct 0 5)) =
      Baton.status (Baton.construct 0 5) :=
  c6_abort_idempotent (Baton.construct 0 5) 3 (by decide)

/-- C7 (confirmed): if the abort word is first read as 1 at poll `k`, and at
every earlier poll the timeout had not yet elapsed (or the timeout is 0),
the loop exits at poll `k` — i.e. within one poll interval of the abort
becoming visible — with ABORTED, and ABORTED is never TIMED_OUT; since the
exit returns, no later write can replace it. -/
theorem c7_abort_wins (timeout_ms start : Nat) (clock : Nat → Nat)
    (flag : Nat → Int) (k fuel : Nat)
    (hflag : ∀ j, j < k → flag j ≠ 1)
    (htime : ∀ j, j < k →
      timeout_ms = 0 ∨ clock j - start ≤ timeout_ms * 1000000)
    (habort : flag k = 1) (hfuel : k < fuel) :
    kernel_barrier_loop timeout_ms start clock flag fuel 0 = some ABORTED ∧
    ABORTED ≠ TIMED_OUT := by
  refine ⟨?_, by decide⟩
  apply loop_abort_observed timeout_ms start clock flag k 0 fuel ?_ ?_ hfuel
  · intro j hj
    rw [Nat.zero_add]
    unfold kernel_barrier_iter
    rw [if_neg (hflag j hj)]
    rcases htime j hj with h | h
    · subst h
      simp
    · rw [if_neg]
      rintro ⟨-, hlt⟩
      omega
  · rwa [Nat.zero_add]

/-- Witness for C7: timeout 0 and the abort already visible at poll 0. -/
theorem c7_abort_wins_witness :
    kernel_barrier_loop 0 0 (fun _ => 0) (fun _ => 1) 1 0 = some ABORTED ∧
    ABORTED ≠ TIMED_OUT :=
  c7_abort_wins 0 0 (fun _ => 0) (fun _ => 1) 0 1
    (fun j hj => absurd hj (Nat.not_lt_zero j))
    (fun j hj => absurd hj (Nat.not_lt_zero j))
    rfl (by decide)

/-- C8 (confirmed, registry modelled from the spec): `baton(timeout)` either
propagates the exact Baton the registered "CUDA" factory built, or — when
`Create` yields nothing, in particular for an unregistered name — fails with
the fatal "Failed to create baton" error; it never returns `ok` of anything
`Create` did not produce, so no null or partially built Baton escapes. -/
theorem c8_baton_all_or_nothing (reg : List (String × (Nat → BatonObj)))
    (t : Nat) :
    (RegistryCreate reg "CUDA" t = none →
      baton reg t = Except.error "Failed to create baton") ∧
    (∀ b, RegistryCreate reg "CUDA" t = some b → baton reg t = Except.ok b) ∧
    (∀ b, baton reg t = Except.ok b → RegistryCreate reg "CUDA" t = some b) := by
  cases hc : RegistryCreate reg "CUDA" t with
  | none =>
    refine ⟨fun _ => by simp [baton, hc], fun b hb => ?_, fun b hb => ?_⟩
    · exact Option.noConfusion hb
    · simp [baton, hc] at hb
  | some b0 =>
    refine ⟨fun h => ?_, fun b hb => ?_, fun b hb => ?_⟩
    · exact Option.noConfusion h
    · have hbb : b0 = b := Option.some.inj hb
      subst hbb
      simp [baton, hc]
    · simp [baton, hc] at hb
      rw [hb]

/-- Witness for C8: the empty registry has no "CUDA" entry, so `baton`
fails fatally. -/
theorem c8_baton_all_or_nothing_witness :
    baton [] 5 = Except.error "Failed to create baton" :=
  (c8_baton_all_or_nothing [] 5).1 rfl

/-- C10 (confirmed): `status()` returns the raw int32 held in the second
channel word, with no validation, so a word holding a value outside the
closed enum (here 7) is returned as-is, equal to none of UNKNOWN, RUNNING,
TIMED_OUT, ABORTED. -/
theorem c10_status_unvalidated :
    (∀ c : ControlChannel, Baton.status c = c.statusWord) ∧
    Baton.status (Baton.construct 0 7) = 7 ∧
    Baton.status (Baton.construct 0 7) ≠ UNKNOWN ∧
    Baton.status (Baton.construct 0 7) ≠ RUNNING ∧
    Baton.status (Baton.construct 0 7) ≠ TIMED_OUT ∧
    Baton.status (Baton.construct 0 7) ≠ ABORTED :=
  ⟨fun _ => rfl, rfl, by decide, by decide, by decide, by decide⟩

end C10dCuda
